import Mathlib

/-!
Shallow embedding of the AI voice sales agent webhook server
(`twilio_directory/webhook.py`, `twilio_directory/call.py`).

External collaborators (the GPT decision function and the Zoho CRM) are
opaque parameters; fallible collaborators are modelled with `Except`,
exceptions caught by a handler's `try/except` block become explicit
branches.  The process-wide `conversation_states` Python dict is modelled
as an association list (`Store`) preserving insertion order, which is the
iteration order used by `handle_call_status`'s linear scan.
-/

set_option autoImplicit false

namespace SalesAgent

/-- One entry of a `conversation_history` list: the dict appended at
`webhook.py` lines 98-103 (`speaker`, `message`, `confidence`, `timestamp`). -/
structure Turn where
  speaker : String
  message : String
  confidence : String
  timestamp : String
  deriving Repr, DecidableEq

/-- The per-lead conversation state dict created at `webhook.py` lines 55-62.
`qualification_questions` is created empty and never touched again. -/
structure ConvState where
  lead_id : String
  call_sid : String
  conversation_history : List Turn
  current_step : String
  start_time : String
  qualification_questions : List String
  deriving Repr, DecidableEq

/-- The `conversation_states` dict: keys are lead ids.  Insertion order is
preserved (Python dict semantics). -/
abbrev Store := List (String × ConvState)

/-- Python `conversation_states.get(lead_id)` / `lead_id in conversation_states`. -/
def Store.lookup : Store → String → Option ConvState
  | [], _ => none
  | (k, v) :: rest, key => if k = key then some v else Store.lookup rest key

/-- Python `conversation_states[lead_id] = state`: replace in place if the
key exists, else append at the end (dict insertion order). -/
def Store.insert : Store → String → ConvState → Store
  | [], key, v => [(key, v)]
  | (k, v') :: rest, key, v =>
    if k = key then (key, v) :: rest else (k, v') :: Store.insert rest key v

/-- Python `del conversation_states[lead_id]`. -/
def Store.erase : Store → String → Store
  | [], _ => []
  | (k, v) :: rest, key => if k = key then rest else (k, v) :: Store.erase rest key

/-- `for lid, state in conversation_states.items(): if state.get('call_sid') == call_sid`:
first entry (in insertion order) whose stored call sid equals the given one. -/
def Store.findByCallSid (s : Store) (sid : Option String) : Option (String × ConvState) :=
  s.find? (fun p => sid = some p.2.call_sid)

/-! ### Phone-number normalizer (`call.py`, `_format_phone_number`) -/

/-- The character filter of `call.py` line 68:
`c.isdigit() or c == '+'` (inputs are ASCII phone strings). -/
def phoneChar (c : Char) : Bool := c.isDigit || c == '+'

/-- The branch cascade of `_format_phone_number` (`call.py` lines 70-81)
applied to the already-cleaned string: `startswith` / `len` checks are all on
`cleaned`. -/
def formatPhoneCore (cleaned : List Char) : List Char :=
  if cleaned.head? = some '+' then cleaned
  else if cleaned.take 2 = ['9', '1'] ∧ cleaned.length = 12 then '+' :: cleaned
  else if cleaned.take 2 = ['0', '3'] ∧ cleaned.length = 11 then
    '+' :: '9' :: '2' :: cleaned.drop 1
  else if cleaned.length = 10 then '+' :: '9' :: '1' :: cleaned
  else if cleaned.length = 11 ∧ cleaned.head? = some '0' then
    '+' :: '9' :: '2' :: cleaned.drop 1
  else '+' :: cleaned

/-- `_format_phone_number` from `call.py` lines 65-83, on the character list
of the input string: strip everything but digits and `+` (line 68), then the
branch cascade. -/
def formatPhoneNumber (s : List Char) : List Char :=
  formatPhoneCore (s.filter phoneChar)

/-- `_format_phone_number` at the string level. -/
def formatPhone (s : String) : String := String.mk (formatPhoneNumber s.toList)

/-- The spec's rules 2-7 (spec §4.1) over the cleaned string and the digit
string `ds` of the input: rule 2 returns a `+`-prefixed cleaned string as-is;
rules 3-6 are conditions on the digits ("12 digits starting with 91", ...);
rule 7 prefixes a bare `+`. -/
def normalizeSpecCore (cleaned ds : List Char) : List Char :=
  if cleaned.head? = some '+' then cleaned
  else if ds.take 2 = ['9', '1'] ∧ ds.length = 12 then '+' :: ds
  else if ds.take 2 = ['0', '3'] ∧ ds.length = 11 then '+' :: '9' :: '2' :: ds.drop 1
  else if ds.length = 10 then '+' :: '9' :: '1' :: ds
  else if ds.length = 11 ∧ ds.head? = some '0' then '+' :: '9' :: '2' :: ds.drop 1
  else '+' :: cleaned

/-- The spec's normalization algorithm (spec §4.1), written from its words:
rule 1 strips all characters except digits and `+`, then rules 2-7. -/
def normalizeSpec (s : List Char) : List Char :=
  normalizeSpecCore (s.filter phoneChar) (s.filter Char.isDigit)

/-- A character allowed in the body of a phone input per the claim:
digits and spaces. -/
def validPhoneChar (c : Char) : Bool := c.isDigit || c == ' '

/-- The claim's input domain: digits, spaces, and an optional *leading* plus. -/
def ValidPhoneInput (s : List Char) : Prop :=
  (if s.head? = some '+' then s.tail else s).all validPhoneChar = true

instance : DecidablePred ValidPhoneInput := fun s => by
  unfold ValidPhoneInput; infer_instance

/-! ### TwiML responses, CRM calls, decision-function payloads -/

/-- One action appended to a Twilio `VoiceResponse`. -/
inductive TwimlAction where
  | say (msg : String)
  | gather (action : String) (fallbackSay : String)
  | hangup
  deriving Repr, DecidableEq

/-- A built `VoiceResponse`: the ordered list of its actions. -/
abbrev Twiml := List TwimlAction

/-- `_generate_error_response` (`webhook.py` lines 253-258). -/
def generateErrorResponse (errorMessage : String) : Twiml :=
  [.say ("Sorry, " ++ errorMessage ++ ". Please try again later."), .hangup]

/-- A call made to the Zoho CRM: `mark_lead_qualified(lead_id, summary, history)`
or `mark_lead_disqualified(reason, history)` (the latter takes no lead id in
the source). -/
inductive CrmWrite where
  | qualified (lead_id : String) (summary : String) (history : String)
  | disqualified (reason : String) (history : String)
  deriving Repr, DecidableEq

/-- The dynamic dict returned by the GPT decision functions
(`process_user_response` / `process_final_qualification`): the keys the
dispatcher reads, each optional like Python `.get`. -/
structure GptResponse where
  is_final : Bool
  qualification_result : Option String
  summary : Option String
  reason : Option String
  next_question : Option String
  deriving Repr, DecidableEq

/-- A fallible collaborator call: `.error e` models a raised exception. -/
abbrev Fallible (α : Type) := Except String α

/-- The CRM record returned by `get_lead_by_id`: the fields
`_generate_voice_response` reads with `.get(..., '')`. -/
structure LeadInfo where
  first_name : String
  last_name : String
  company : String
  deriving Repr, DecidableEq

/-- Python `str(conversation_history)` as passed to the CRM writers; a fixed
injective-enough serialization standing for the `str()` of the list of dicts. -/
def historyString (h : List Turn) : String :=
  String.intercalate "; "
    (h.map fun t => t.speaker ++ ":" ++ t.message ++ ":" ++ t.confidence ++ ":" ++ t.timestamp)

/-! ### Dialogue-response generator -/

/-- `_generate_voice_response` (`webhook.py` lines 167-202): greeting with the
lead's name (generic fallback when blank), speech gather, no-speech fallback,
goodbye, hangup. -/
def generateVoiceResponse (lead_id : String) (info : LeadInfo) : Twiml :=
  let lead_name := (info.first_name ++ " " ++ info.last_name).trim
  let lead_name := if lead_name = "" then "Sir/Madam" else lead_name
  [ .say ("Namaste " ++ lead_name ++ "! Main aapko call kar raha hoon. Kya aap mujhe 2 minute de sakte hain?"),
    .gather ("/twilio/gather?lead_id=" ++ lead_id) "Aap kuch bol sakte hain?",
    .say "Thank you for your time. Goodbye!",
    .hangup ]

/-- Result of `_generate_follow_up_response`: the TwiML built so far, the CRM
calls issued, and whether a CRM call raised (the exception then propagates to
`handle_gather`'s `except` block). -/
structure FollowUpResult where
  twiml : Twiml
  crmWrites : List CrmWrite
  raised : Bool
  deriving Repr, DecidableEq

/-- `_generate_follow_up_response` (`webhook.py` lines 204-251).  `hist` is
`conversation_states[lead_id]['conversation_history']` at the time of the call
(the caller has just appended the user turn in place).  On the final branch it
speaks a fixed closing, hangs up, and issues the terminal CRM write; it never
marks the state completed and never deletes the entry. -/
def generateFollowUpResponse
    (crmQ : String → String → String → Fallible Unit)
    (crmD : String → String → Fallible Unit)
    (lead_id : String) (g : GptResponse) (hist : List Turn) : FollowUpResult :=
  if g.is_final then
    let qualification_result := g.qualification_result.getD "unknown"
    let summary := g.summary.getD ""
    let message :=
      if qualification_result = "qualified" then
        "Bahut achha! Aap qualify ho gaye hain. Hamara team aapko contact karega. Thank you!"
      else
        "Thank you for your time. Hamara team aapko future mein contact kar sakta hai. Goodbye!"
    let twiml : Twiml := [.say message, .hangup]
    if qualification_result = "qualified" then
      let write := CrmWrite.qualified lead_id summary (historyString hist)
      match crmQ lead_id summary (historyString hist) with
      | .ok _ => ⟨twiml, [write], false⟩
      | .error _ => ⟨twiml, [write], true⟩
    else
      let reason := g.reason.getD "No specific reason"
      let write := CrmWrite.disqualified reason (historyString hist)
      match crmD reason (historyString hist) with
      | .ok _ => ⟨twiml, [write], false⟩
      | .error _ => ⟨twiml, [write], true⟩
  else
    let next_question := g.next_question.getD "Kya aap mujhe aur detail de sakte hain?"
    ⟨[ .say next_question,
       .gather ("/twilio/gather?lead_id=" ++ lead_id) "Aap kuch bol sakte hain?",
       .say "Thank you for your time. Goodbye!",
       .hangup ], [], false⟩

/-! ### Webhook dispatcher handlers -/

/-- Result of the voice webhook: the store after the request and the TwiML
response body. -/
structure VoiceResult where
  store : Store
  response : Twiml
  deriving Repr, DecidableEq

/-- `handle_voice_webhook` (`webhook.py` lines 41-82).  `crmGet` is
`crm.get_lead_by_id`; `.ok none` is a lead not found, `.error` a raised fetch.
The state entry is created (lines 54-62) *before* the CRM lookup; nothing in
this handler mutates the store afterwards.  `now` stands for
`datetime.now().isoformat()`. -/
def handleVoiceWebhook (crmGet : String → Fallible (Option LeadInfo))
    (store : Store) (lead_id : String) (call_sid : String) (now : String) : VoiceResult :=
  let store' :=
    if (store.lookup lead_id).isSome then store
    else store.insert lead_id
      { lead_id := lead_id, call_sid := call_sid, conversation_history := [],
        current_step := "greeting", start_time := now, qualification_questions := [] }
  match crmGet lead_id with
  | .error _ => ⟨store', generateErrorResponse "Error fetching lead information"⟩
  | .ok none => ⟨store', generateErrorResponse "Lead information not found"⟩
  | .ok (some info) => ⟨store', generateVoiceResponse lead_id info⟩

/-- Result of the gather webhook: store, TwiML body, CRM calls issued. -/
structure GatherResult where
  store : Store
  response : Twiml
  crmWrites : List CrmWrite
  deriving Repr, DecidableEq

/-- `handle_gather` (`webhook.py` lines 84-119).  `lead_id` is
`request.form.get('lead_id')` (`none` = absent; the empty string is falsy, so
`if not lead_id` also rejects it before any lookup).  On a known lead the user
turn is appended (lines 98-103) before `gpt_agent.process_user_response` is
invoked on the updated state (lines 106-110); a raise from the decision
function or a CRM write is caught by the handler's `except` block, which
returns the error response — the appended turn stays in the store either way. -/
def handleGather
    (decideFn : String → String → ConvState → Fallible GptResponse)
    (crmQ : String → String → String → Fallible Unit)
    (crmD : String → String → Fallible Unit)
    (store : Store) (lead_id : Option String)
    (speech_result confidence now : String) : GatherResult :=
  match lead_id with
  | none => ⟨store, generateErrorResponse "Invalid lead ID", []⟩
  | some lid =>
    if lid = "" then ⟨store, generateErrorResponse "Invalid lead ID", []⟩
    else
      match store.lookup lid with
      | none => ⟨store, generateErrorResponse "Invalid lead ID", []⟩
      | some st =>
        let turn : Turn :=
          { speaker := "user", message := speech_result,
            confidence := confidence, timestamp := now }
        let st' := { st with conversation_history := st.conversation_history ++ [turn] }
        let store' := store.insert lid st'
        match decideFn lid speech_result st' with
        | .error _ => ⟨store', generateErrorResponse "An error occurred", []⟩
        | .ok g =>
          let r := generateFollowUpResponse crmQ crmD lid g st'.conversation_history
          ⟨store', if r.raised then generateErrorResponse "An error occurred" else r.twiml,
           r.crmWrites⟩

/-- Result of `_process_final_qualification` / `handle_call_status`: store
after the request, CRM calls issued, and error-log lines emitted. -/
structure FinalQualResult where
  store : Store
  crmWrites : List CrmWrite
  errorsLogged : List String
  deriving Repr, DecidableEq

/-- `_process_final_qualification` (`webhook.py` lines 260-286).  `decideFinal`
is `gpt_agent.process_final_qualification`.  The whole body sits in a
`try/except` that only logs; the `del conversation_states[lead_id]` is the
last statement of the `is_final` branch, after the CRM write, so any raise
skips it and the entry stays. -/
def processFinalQualification
    (decideFinal : String → ConvState → Fallible GptResponse)
    (crmQ : String → String → String → Fallible Unit)
    (crmD : String → String → Fallible Unit)
    (store : Store) (lead_id : String) : FinalQualResult :=
  match store.lookup lead_id with
  | none => ⟨store, [], []⟩
  | some st =>
    if st.current_step = "completed" then ⟨store, [], []⟩
    else
      match decideFinal lead_id st with
      | .error e => ⟨store, [], ["Error processing final qualification for Lead " ++ lead_id ++ ": " ++ e]⟩
      | .ok g =>
        if g.is_final then
          let qualification_result := g.qualification_result.getD "unknown"
          let summary := g.summary.getD ""
          if qualification_result = "qualified" then
            let write := CrmWrite.qualified lead_id summary (historyString st.conversation_history)
            match crmQ lead_id summary (historyString st.conversation_history) with
            | .error e => ⟨store, [write],
                ["Error processing final qualification for Lead " ++ lead_id ++ ": " ++ e]⟩
            | .ok _ => ⟨store.erase lead_id, [write], []⟩
          else
            let reason := g.reason.getD "No specific reason"
            let write := CrmWrite.disqualified reason (historyString st.conversation_history)
            match crmD reason (historyString st.conversation_history) with
            | .error e => ⟨store, [write],
                ["Error processing final qualification for Lead " ++ lead_id ++ ": " ++ e]⟩
            | .ok _ => ⟨store.erase lead_id, [write], []⟩
        else ⟨store, [], []⟩

/-- `handle_call_status` (`webhook.py` lines 121-146): find the first state
whose `call_sid` matches the form's `CallSid`; if one is found (with a truthy
key) and `CallStatus` is `completed`, run the final-qualification fallback. -/
def handleCallStatus
    (decideFinal : String → ConvState → Fallible GptResponse)
    (crmQ : String → String → String → Fallible Unit)
    (crmD : String → String → Fallible Unit)
    (store : Store) (call_sid call_status : Option String) : FinalQualResult :=
  match store.findByCallSid call_sid with
  | some (lid, _) =>
    if lid ≠ "" ∧ call_status = some "completed" then
      processFinalQualification decideFinal crmQ crmD store lid
    else ⟨store, [], []⟩
  | none => ⟨store, [], []⟩

/-- N successive gather callbacks for one lead: the store threaded through
`handle_gather` once per utterance `(speech_result, confidence, timestamp)`. -/
def runGathers
    (decideFn : String → String → ConvState → Fallible GptResponse)
    (crmQ : String → String → String → Fallible Unit)
    (crmD : String → String → Fallible Unit)
    (lid : String) (store : Store) (utts : List (String × String × String)) : Store :=
  utts.foldl
    (fun s u => (handleGather decideFn crmQ crmD s (some lid) u.1 u.2.1 u.2.2).store)
    store

/-! ### Helper lemmas: the store -/

theorem Store.lookup_insert (s : Store) (k : String) (v : ConvState) :
    (s.insert k v).lookup k = some v := by
  induction s with
  | nil => simp [Store.insert, Store.lookup]
  | cons p rest ih =>
    obtain ⟨k', v'⟩ := p
    by_cases h : k' = k
    · simp [Store.insert, Store.lookup, h]
    · simp [Store.insert, Store.lookup, h, ih]

theorem Store.lookup_isSome_insert_self (s : Store) (k : String) (v : ConvState) :
    ((s.insert k v).lookup k).isSome := by
  rw [Store.lookup_insert]; rfl

/-! ### Helper lemmas: the phone normalizer -/

theorem filter_phoneChar_of_valid (l : List Char) (h : l.all validPhoneChar = true) :
    l.filter phoneChar = l.filter Char.isDigit := by
  induction l with
  | nil => rfl
  | cons c t ih =>
    rw [List.all_cons, Bool.and_eq_true] at h
    obtain ⟨hc, ht⟩ := h
    by_cases hd : c.isDigit
    · simp [List.filter_cons, phoneChar, hd, ih ht]
    · have hsp : c = ' ' := by
        unfold validPhoneChar at hc
        rcases Bool.or_eq_true _ _ |>.mp hc with h1 | h2
        · exact absurd h1 hd
        · exact eq_of_beq h2
      subst hsp
      simp [List.filter_cons, phoneChar, ih ht]

theorem formatPhoneCore_head (c : List Char) :
    (formatPhoneCore c).head? = some '+' := by
  unfold formatPhoneCore
  split
  · assumption
  split
  · rfl
  split
  · rfl
  split
  · rfl
  split
  · rfl
  · rfl

theorem all_phoneChar_filter (l : List Char) :
    (l.filter phoneChar).all phoneChar = true := by
  rw [List.all_eq_true]
  intro c hc
  exact (List.mem_filter.mp hc).2

theorem all_phoneChar_drop (l : List Char) (hl : l.all phoneChar = true) :
    (l.drop 1).all phoneChar = true := by
  rw [List.all_eq_true] at hl ⊢
  intro c hc
  exact hl c (List.mem_of_mem_drop hc)

theorem formatPhoneCore_all_phoneChar (c : List Char) (hc : c.all phoneChar = true) :
    (formatPhoneCore c).all phoneChar = true := by
  unfold formatPhoneCore
  split
  · exact hc
  split
  · simp only [List.all_cons, Bool.and_eq_true]
    exact ⟨by decide, hc⟩
  split
  · simp only [List.all_cons, Bool.and_eq_true]
    exact ⟨by decide, by decide, by decide, all_phoneChar_drop _ hc⟩
  split
  · simp only [List.all_cons, Bool.and_eq_true]
    exact ⟨by decide, by decide, by decide, hc⟩
  split
  · simp only [List.all_cons, Bool.and_eq_true]
    exact ⟨by decide, by decide, by decide, all_phoneChar_drop _ hc⟩
  · simp only [List.all_cons, Bool.and_eq_true]
    exact ⟨by decide, hc⟩

theorem formatPhoneNumber_idem (s : List Char) :
    formatPhoneNumber (formatPhoneNumber s) = formatPhoneNumber s := by
  have hall : (formatPhoneNumber s).all phoneChar = true :=
    formatPhoneCore_all_phoneChar _ (all_phoneChar_filter s)
  have hfix : (formatPhoneNumber s).filter phoneChar = formatPhoneNumber s := by
    rw [List.filter_eq_self]
    exact List.all_eq_true.mp hall
  have hhead : (formatPhoneNumber s).head? = some '+' := formatPhoneCore_head _
  conv_lhs => rw [formatPhoneNumber, hfix, formatPhoneCore, if_pos hhead]

theorem phone_spec_agree (s : List Char) (h : ValidPhoneInput s) :
    formatPhoneNumber s = normalizeSpec s := by
  unfold ValidPhoneInput at h
  by_cases hp : s.head? = some '+'
  · have hcl : (s.filter phoneChar).head? = some '+' := by
      cases s with
      | nil => simp at hp
      | cons c t =>
        simp only [List.head?_cons, Option.some.injEq] at hp
        subst hp
        simp [List.filter_cons, phoneChar]
    unfold formatPhoneNumber normalizeSpec formatPhoneCore normalizeSpecCore
    rw [if_pos hcl, if_pos hcl]
  · rw [if_neg hp] at h
    have hfd := filter_phoneChar_of_valid s h
    unfold formatPhoneNumber normalizeSpec
    rw [hfd]
    rfl

/-! ### Helper lemmas: the gather handler -/

theorem handleGather_store_known
    (decideFn : String → String → ConvState → Fallible GptResponse)
    (crmQ : String → String → String → Fallible Unit)
    (crmD : String → String → Fallible Unit)
    (store : Store) (lid : String) (st : ConvState)
    (hne : lid ≠ "") (h : store.lookup lid = some st) (speech conf now : String) :
    (handleGather decideFn crmQ crmD store (some lid) speech conf now).store =
      store.insert lid { st with conversation_history :=
        st.conversation_history ++ [⟨"user", speech, conf, now⟩] } := by
  simp only [handleGather, if_neg hne, h]
  split <;> rfl

/-! ### Concrete fixtures used by the code-bug and witness evaluations -/

/-- A freshly created conversation state for lead `L1` on call `CA1`, as
`handle_voice_webhook` builds it. -/
def stGreeting : ConvState :=
  ⟨"L1", "CA1", [], "greeting", "t0", []⟩

/-- A decision function answering every utterance with a final "qualified"
verdict. -/
def decideQualified : String → String → ConvState → Fallible GptResponse :=
  fun _ _ _ => .ok ⟨true, some "qualified", some "good fit", none, none⟩

/-- A final-qualification decision function returning a final "qualified"
verdict. -/
def decideFinalQualified : String → ConvState → Fallible GptResponse :=
  fun _ _ => .ok ⟨true, some "qualified", some "fallback summary", none, none⟩

/-- A final-qualification decision function that raises. -/
def decideFinalThrow : String → ConvState → Fallible GptResponse :=
  fun _ _ => .error "decision function raised"

/-- A `mark_lead_qualified` that always succeeds. -/
def crmOkQ : String → String → String → Fallible Unit := fun _ _ _ => .ok ()

/-- A `mark_lead_disqualified` that always succeeds. -/
def crmOkD : String → String → Fallible Unit := fun _ _ => .ok ()

/-! ### Claims -/

/-- C6: phone normalization follows the ordered first-match rules of the spec
for every input string of digits, spaces and an optional leading plus, and in
particular `normalize("9991234567") = "+919991234567"`,
`normalize("03001234567") = "+923001234567"`, and
`normalize("+14155551234") = "+14155551234"`.  (`formatPhoneNumber` is total,
so it never raises and always returns a string.) -/
theorem c6_phone_normalization_matches_spec :
    (∀ s : List Char, ValidPhoneInput s → formatPhoneNumber s = normalizeSpec s) ∧
    formatPhone "9991234567" = "+919991234567" ∧
    formatPhone "03001234567" = "+923001234567" ∧
    formatPhone "+14155551234" = "+14155551234" :=
  ⟨phone_spec_agree, rfl, rfl, rfl⟩

/-- Witness for C6: the spec agreement, evaluated on the concrete valid input
`"03001234567"`. -/
theorem c6_phone_normalization_matches_spec_witness :
    ValidPhoneInput ("03001234567".toList) ∧
    formatPhoneNumber ("03001234567".toList) = normalizeSpec ("03001234567".toList) :=
  ⟨by decide, c6_phone_normalization_matches_spec.1 _ (by decide)⟩

/-- C7: phone normalization is idempotent: for every input string `x`,
`normalize(normalize(x)) = normalize(x)`; in particular any already-canonical
`+`-prefixed number is returned unchanged by a second application. -/
theorem c7_phone_normalization_idempotent (x : String) :
    formatPhone (formatPhone x) = formatPhone x :=
  congrArg String.mk (formatPhoneNumber_idem x.toList)

/-- C4: a gather callback whose `lead_id` is missing or not a key of the
conversation-state store returns the error response, leaves the store exactly
as it was, and issues no CRM write. -/
theorem c4_gather_unknown_lead_no_mutation
    (decideFn : String → String → ConvState → Fallible GptResponse)
    (crmQ : String → String → String → Fallible Unit)
    (crmD : String → String → Fallible Unit)
    (store : Store) (lead_id : Option String) (speech conf now : String)
    (h : ∀ lid, lead_id = some lid → store.lookup lid = none) :
    handleGather decideFn crmQ crmD store lead_id speech conf now =
      ⟨store, generateErrorResponse "Invalid lead ID", []⟩ := by
  cases lead_id with
  | none => rfl
  | some lid =>
    have hl := h lid rfl
    by_cases he : lid = ""
    · simp [handleGather, he]
    · simp [handleGather, he, hl]

/-- Witness for C4: a gather callback for the unknown lead `L9` on an empty
store. -/
theorem c4_gather_unknown_lead_no_mutation_witness :
    handleGather decideQualified crmOkQ crmOkD [] (some "L9") "hi" "0.5" "t0" =
      ⟨[], generateErrorResponse "Invalid lead ID", []⟩ :=
  c4_gather_unknown_lead_no_mutation decideQualified crmOkQ crmOkD [] (some "L9") "hi" "0.5" "t0"
    (by intro lid hl; injection hl with hl; subst hl; rfl)

/-- C8: for a lead with an existing entry, N successive gather callbacks
append exactly one user turn per callback: the resulting history is the prior
history followed by the N utterances as user turns, in arrival order — nothing
is reordered, replaced or removed. -/
theorem c8_gather_append_only
    (decideFn : String → String → ConvState → Fallible GptResponse)
    (crmQ : String → String → String → Fallible Unit)
    (crmD : String → String → Fallible Unit)
    (lid : String) (store : Store) (st : ConvState)
    (hne : lid ≠ "") (h : store.lookup lid = some st)
    (utts : List (String × String × String)) :
    (runGathers decideFn crmQ crmD lid store utts).lookup lid =
      some { st with conversation_history :=
        st.conversation_history ++ utts.map (fun u => ⟨"user", u.1, u.2.1, u.2.2⟩) } := by
  induction utts generalizing store st with
  | nil => simpa [runGathers] using h
  | cons u rest ih =>
    have hstep : runGathers decideFn crmQ crmD lid store (u :: rest) =
        runGathers decideFn crmQ crmD lid
          ((handleGather decideFn crmQ crmD store (some lid) u.1 u.2.1 u.2.2).store) rest := rfl
    rw [hstep, handleGather_store_known decideFn crmQ crmD store lid st hne h]
    rw [ih _ _ (Store.lookup_insert _ _ _)]
    simp [List.append_assoc]

/-- Witness for C8: two gather callbacks for lead `L1` starting from a fresh
greeting state append the two utterances in order. -/
theorem c8_gather_append_only_witness :
    (runGathers decideQualified crmOkQ crmOkD "L1" [("L1", stGreeting)]
        [("yes", "0.9", "t1"), ("sure", "0.8", "t2")]).lookup "L1" =
      some { stGreeting with conversation_history :=
        stGreeting.conversation_history ++
          [⟨"user", "yes", "0.9", "t1"⟩, ⟨"user", "sure", "0.8", "t2"⟩] } :=
  c8_gather_append_only decideQualified crmOkQ crmOkD "L1" [("L1", stGreeting)] stGreeting
    (by decide) rfl [("yes", "0.9", "t1"), ("sure", "0.8", "t2")]

/-- C9: on a gather callback for a known lead, the user turn is appended
before the decision function runs: the handler's result depends on the
decision function only through its value at the updated state, whose history
ends with the current utterance. -/
theorem c9_decision_sees_appended_turn
    (d₁ d₂ : String → String → ConvState → Fallible GptResponse)
    (crmQ : String → String → String → Fallible Unit)
    (crmD : String → String → Fallible Unit)
    (store : Store) (lid : String) (st : ConvState) (speech conf now : String)
    (hne : lid ≠ "") (h : store.lookup lid = some st)
    (hagree :
      d₁ lid speech { st with conversation_history :=
          st.conversation_history ++ [⟨"user", speech, conf, now⟩] } =
      d₂ lid speech { st with conversation_history :=
          st.conversation_history ++ [⟨"user", speech, conf, now⟩] }) :
    handleGather d₁ crmQ crmD store (some lid) speech conf now =
      handleGather d₂ crmQ crmD store (some lid) speech conf now ∧
    ({ st with conversation_history :=
        st.conversation_history ++ [⟨"user", speech, conf, now⟩] }
      : ConvState).conversation_history.getLast? = some ⟨"user", speech, conf, now⟩ := by
  constructor
  · simp only [handleGather, if_neg hne, h]
    rw [hagree]
  · simp

/-- Witness for C9: concrete gather callback for lead `L1`. -/
theorem c9_decision_sees_appended_turn_witness :
    handleGather decideQualified crmOkQ crmOkD [("L1", stGreeting)] (some "L1") "yes" "0.9" "t1" =
      handleGather decideQualified crmOkQ crmOkD [("L1", stGreeting)] (some "L1") "yes" "0.9" "t1" ∧
    ({ stGreeting with conversation_history :=
        stGreeting.conversation_history ++ [⟨"user", "yes", "0.9", "t1"⟩] }
      : ConvState).conversation_history.getLast? = some ⟨"user", "yes", "0.9", "t1"⟩ :=
  c9_decision_sees_appended_turn decideQualified decideQualified crmOkQ crmOkD
    [("L1", stGreeting)] "L1" stGreeting "yes" "0.9" "t1" (by decide) rfl rfl

/-- C10: a voice-call-started callback for a lead that already has an entry
leaves the store — and in particular that entry, its stored `call_sid`,
history, step and start time — unchanged; the new callback's CallSid is
ignored. -/
theorem c10_voice_existing_lead_unchanged
    (crmGet : String → Fallible (Option LeadInfo))
    (store : Store) (lid call_sid now : String) (st : ConvState)
    (h : store.lookup lid = some st) :
    (handleVoiceWebhook crmGet store lid call_sid now).store = store ∧
    ((handleVoiceWebhook crmGet store lid call_sid now).store.lookup lid = some st) := by
  have hsome : (store.lookup lid).isSome := by rw [h]; rfl
  have hstore : (handleVoiceWebhook crmGet store lid call_sid now).store = store := by
    unfold handleVoiceWebhook
    simp only [hsome, if_pos]
    split <;> rfl
  exact ⟨hstore, by rw [hstore, h]⟩

/-- Witness for C10: a second voice callback for `L1` with a different CallSid
leaves the stored entry (with the original `CA1`) untouched. -/
theorem c10_voice_existing_lead_unchanged_witness :
    (handleVoiceWebhook (fun _ => .ok none) [("L1", stGreeting)] "L1" "CA2" "t9").store =
        [("L1", stGreeting)] ∧
    ((handleVoiceWebhook (fun _ => .ok none) [("L1", stGreeting)] "L1" "CA2" "t9").store.lookup
        "L1" = some stGreeting) :=
  c10_voice_existing_lead_unchanged (fun _ => .ok none) [("L1", stGreeting)] "L1" "CA2" "t9"
    stGreeting rfl

/-- The gather callback in which the decision function returns a final
"qualified" verdict for lead `L1`. -/
def gatherFinalResult : GatherResult :=
  handleGather decideQualified crmOkQ crmOkD [("L1", stGreeting)] (some "L1") "yes" "0.9" "t1"

/-- The status-completed callback for call `CA1` arriving after the final
gather above. -/
def statusAfterGather : FinalQualResult :=
  handleCallStatus decideFinalQualified crmOkQ crmOkD gatherFinalResult.store
    (some "CA1") (some "completed")

/-- C1 (code bug): a final gather callback followed by the status-completed
callback for the same call performs *two* terminal CRM writes for lead `L1`
— the gather-final path never marks the state `completed` nor deletes the
entry, so `_process_final_qualification`'s "if not already done" guard does
not fire.  The claim's at-most-once property fails. -/
theorem c1_double_terminal_crm_write :
    gatherFinalResult.crmWrites =
      [CrmWrite.qualified "L1" "good fit" (historyString [⟨"user", "yes", "0.9", "t1"⟩])] ∧
    statusAfterGather.crmWrites =
      [CrmWrite.qualified "L1" "fallback summary" (historyString [⟨"user", "yes", "0.9", "t1"⟩])] ∧
    gatherFinalResult.crmWrites.length + statusAfterGather.crmWrites.length = 2 :=
  ⟨rfl, rfl, rfl⟩

/-- C2 (code bug): after the gather callback whose decision is final (a
terminal transition — the terminal CRM write is issued), lead `L1`'s entry is
*still present* in the conversation-state store, contradicting the claim that
it is absent after any terminal transition. -/
theorem c2_entry_survives_gather_final_transition :
    gatherFinalResult.crmWrites.length = 1 ∧
    (gatherFinalResult.store.lookup "L1").isSome = true :=
  ⟨rfl, rfl⟩

/-- A `mark_lead_qualified` that raises. -/
def crmThrowQ : String → String → String → Fallible Unit :=
  fun _ _ _ => .error "CRM write failed"

/-- C5 (code bug): on the status-completed fallback path, a raise from the
decision function — or from the CRM write — is caught and logged, but the
`del` is skipped, so lead `L1`'s entry is *not* removed from the store,
contradicting the claim that it still is. -/
theorem c5_entry_leaks_on_final_qualification_failure :
    ((processFinalQualification decideFinalThrow crmOkQ crmOkD
        [("L1", stGreeting)] "L1").errorsLogged ≠ [] ∧
      (processFinalQualification decideFinalThrow crmOkQ crmOkD
        [("L1", stGreeting)] "L1").store.lookup "L1" = some stGreeting) ∧
    ((processFinalQualification decideFinalQualified crmThrowQ crmOkD
        [("L1", stGreeting)] "L1").errorsLogged ≠ [] ∧
      (processFinalQualification decideFinalQualified crmThrowQ crmOkD
        [("L1", stGreeting)] "L1").store.lookup "L1" = some stGreeting) :=
  ⟨⟨by decide, rfl⟩, ⟨by decide, rfl⟩⟩

/-- C3 counterexample: a voice callback for lead `L1` whose CRM lookup
returns absent does produce the spoken error with hangup, but the store is
*not* left without an entry for `L1` — the entry is created before the CRM
lookup and survives, refuting the claim as stated. -/
theorem c3_counterexample_entry_created :
    (handleVoiceWebhook (fun _ => .ok none) [] "L1" "CA1" "t0").response =
      generateErrorResponse "Lead information not found" ∧
    ((handleVoiceWebhook (fun _ => .ok none) [] "L1" "CA1" "t0").store.lookup "L1").isSome
      = true :=
  ⟨rfl, rfl⟩

/-- C3 (amended): for every voice callback whose lead cannot be resolved in
the CRM (lookup absent or raising), the handler returns a spoken error
response ending in a hangup, and the conversation-state store is left *with*
an entry for that lead id (created at step `greeting` before the lookup if
none existed). -/
theorem c3_unresolvable_lead_spoken_error_entry_remains
    (crmGet : String → Fallible (Option LeadInfo))
    (store : Store) (lid call_sid now : String)
    (hfail : crmGet lid = Except.ok none ∨ ∃ e, crmGet lid = Except.error e) :
    ((handleVoiceWebhook crmGet store lid call_sid now).response =
        generateErrorResponse "Lead information not found" ∨
      (handleVoiceWebhook crmGet store lid call_sid now).response =
        generateErrorResponse "Error fetching lead information") ∧
    TwimlAction.hangup ∈ (handleVoiceWebhook crmGet store lid call_sid now).response ∧
    ((handleVoiceWebhook crmGet store lid call_sid now).store.lookup lid).isSome = true := by
  have hstore : (handleVoiceWebhook crmGet store lid call_sid now).store =
      if (store.lookup lid).isSome then store
      else store.insert lid ⟨lid, call_sid, [], "greeting", now, []⟩ := by
    unfold handleVoiceWebhook
    cases crmGet lid with
    | error e => rfl
    | ok o => cases o <;> rfl
  refine ⟨?_, ?_, ?_⟩
  · rcases hfail with h0 | ⟨e, h0⟩
    · left
      unfold handleVoiceWebhook
      rw [h0]
    · right
      unfold handleVoiceWebhook
      rw [h0]
  · rcases hfail with h0 | ⟨e, h0⟩ <;>
      (unfold handleVoiceWebhook; rw [h0]; simp [generateErrorResponse])
  · rw [hstore]
    by_cases hpre : (store.lookup lid).isSome
    · rw [if_pos hpre]
      exact hpre
    · rw [if_neg hpre]
      exact Store.lookup_isSome_insert_self _ _ _

/-- Witness for the amended C3: concrete absent-lead lookup on an empty
store. -/
theorem c3_unresolvable_lead_spoken_error_entry_remains_witness :
    ((handleVoiceWebhook (fun _ => .ok none) [] "L2" "CA7" "t0").response =
        generateErrorResponse "Lead information not found" ∨
      (handleVoiceWebhook (fun _ => .ok none) [] "L2" "CA7" "t0").response =
        generateErrorResponse "Error fetching lead information") ∧
    TwimlAction.hangup ∈ (handleVoiceWebhook (fun _ => .ok none) [] "L2" "CA7" "t0").response ∧
    ((handleVoiceWebhook (fun _ => .ok none) [] "L2" "CA7" "t0").store.lookup "L2").isSome
      = true :=
  c3_unresolvable_lead_spoken_error_entry_remains (fun _ => .ok none) [] "L2" "CA7" "t0"
    (Or.inl rfl)

end SalesAgent
